import Mathlib

/-!
Shallow embedding of src/flight/Modules/CCGuidance/ccguidance.c (CCGuidance
module for CopterControl, fixed wing only) and proofs about it.

Floating-point values of the C code are modelled as real numbers; the NaN
results of acos outside [-1,1] (and of division by zero) are modelled by the
explicit domain tests that make the C isnan checks fire, exactly where the C
code tests isnan. GPS latitude/longitude are raw int32 values scaled by 1e-7
at use, as in the C code. The statics of ccguidanceTask form the state record
GuidState; the UAVObjects the task reads and writes form the World record;
the per-cycle read-only inputs form the Env record. UAVObject Get copies the
object into a local by value and Set copies a local back, so a mutation of a
local copy without a Set call leaves the World unchanged.
-/

set_option maxHeartbeats 1000000

namespace CCGuidance

/-- RAD2DEG of the C code: 180 / pi. -/
noncomputable def RAD2DEG : ℝ := 180 / Real.pi

/-- DEG2RAD of the C code: pi / 180. -/
noncomputable def DEG2RAD : ℝ := Real.pi / 180

/-- Modelled from the spec: the tick service is a monotonic counter at
millisecond resolution (spec section 6), so one FreeRTOS tick is 1 ms and
portTICK_RATE_MS = 1. The constant lives in the FreeRTOS headers, which are
not part of this repository. -/
def portTICK_RATE_MS : Nat := 1

/-- Unsigned 32-bit subtraction, as the C expression thisTime - lastUpdateTime
on portTickType (uint32) values. -/
def sub32 (a b : Nat) : Nat := (a % 2 ^ 32 + 2 ^ 32 - b % 2 ^ 32) % 2 ^ 32

/-- Conversion of a C float to int, as in the implicit conversion at the call
abs(DistanceToBase * 111111): truncation toward zero. -/
noncomputable def truncF (x : ℝ) : ℤ := if 0 ≤ x then ⌊x⌋ else -⌊-x⌋

/-- Closed form of the C loop: while (x < -180.) x += 360. It adds 360 the
least number of times that brings x to -180 or above. -/
noncomputable def wrapNeg (x : ℝ) : ℝ :=
  if x < -180 then x + 360 * (⌈(-180 - x) / 360⌉ : ℝ) else x

/-- Closed form of the C loop: while (x > 180.) x -= 360. It subtracts 360 the
least number of times that brings x to 180 or below. -/
noncomputable def wrapPos (x : ℝ) : ℝ :=
  if 180 < x then x - 360 * (⌈(x - 180) / 360⌉ : ℝ) else x

/-- The two successive wrap loops of the C code (first the < -180 loop, then
the > 180 loop), as applied to diffHeadingYaw and courseRelative. -/
noncomputable def wrap180 (x : ℝ) : ℝ := wrapPos (wrapNeg x)

/-- sphereDistance of ccguidance.c: central angle in degrees via the spherical
law of cosines. The C code computes RAD2DEG * acos(arg) and replaces a NaN
result (arg outside [-1,1]) by 0; here the domain test is explicit. -/
noncomputable def sphereDistance (lat1 long1 lat2 long2 : ℝ) : ℝ :=
  let arg : ℝ :=
    Real.sin (DEG2RAD * lat1) * Real.sin (DEG2RAD * lat2)
    + Real.cos (DEG2RAD * lat1) * Real.cos (DEG2RAD * lat2)
      * Real.cos (DEG2RAD * (long2 - long1))
  if 1 < |arg| then 0 else RAD2DEG * Real.arccos arg

/-- The magnitude computed by sphereCourse of ccguidance.c before the sign is
resolved: RAD2DEG * acos((sin lat2 - sin lat1 * cos zeta)/(cos lat1 * sin zeta)),
with a NaN result replaced by 0. In C a zero denominator makes the quotient
infinite or NaN and acos of it NaN, and a quotient outside [-1,1] makes acos
NaN; both cases are the explicit domain test here. -/
noncomputable def sphereCourseMag (lat1 lat2 zeta : ℝ) : ℝ :=
  let num : ℝ := Real.sin (DEG2RAD * lat2) - Real.sin (DEG2RAD * lat1) * Real.cos (DEG2RAD * zeta)
  let den : ℝ := Real.cos (DEG2RAD * lat1) * Real.sin (DEG2RAD * zeta)
  if den = 0 ∨ 1 < |num / den| then 0 else RAD2DEG * Real.arccos (num / den)

/-- The longitude difference long2 - long1 after the two single wrap tests of
sphereCourse (if diff > 180 subtract 360; if diff < -180 add 360). -/
noncomputable def courseSignDiff (long1 long2 : ℝ) : ℝ :=
  let diff : ℝ := long2 - long1
  let diff : ℝ := if diff > 180 then diff - 360 else diff
  if diff < -180 then diff + 360 else diff

/-- sphereCourse of ccguidance.c: initial bearing, range resolved by the sign
of the wrapped longitude difference. -/
noncomputable def sphereCourse (lat1 long1 lat2 long2 zeta : ℝ) : ℝ :=
  if courseSignDiff long1 long2 ≥ 0 then sphereCourseMag lat1 lat2 zeta
  else -sphereCourseMag lat1 lat2 zeta

inductive FlightMode
  | manual
  | stabilized1
  | stabilized2
  | stabilized3
  | positionHold
  | returnToBase
  deriving DecidableEq, Repr

inductive ParsedMode
  | manualMode
  | stabilizedMode
  | guidance
  deriving DecidableEq, Repr

/-- Modelled from the spec: the macro PARSE_FLIGHT_MODE lives in
manualcontrol.h, which is not part of this repository. Per the spec (section
4.4 guard together with the section 4.2 table), the Guidance branch consists of
the PositionHold and ReturnToBase flight modes. -/
def PARSE_FLIGHT_MODE : FlightMode → ParsedMode
  | .positionHold => .guidance
  | .returnToBase => .guidance
  | .manual => .manualMode
  | _ => .stabilizedMode

inductive Armed
  | disarmed
  | arming
  | armed
  deriving DecidableEq, Repr

inductive AirframeType
  | fixedWing
  | fixedWingElevon
  | fixedWingVTail
  | quadX
  | helicopterCP
  deriving DecidableEq, Repr

inductive GPSStatus
  | noGPS
  | noFix
  | fix2D
  | fix3D
  deriving DecidableEq, Repr

inductive Alarm
  | uninitialised
  | ok
  | warning
  | error
  | critical
  deriving DecidableEq, Repr

inductive StabMode
  | rate
  | attitude
  deriving DecidableEq, Repr

/-- GPSPositionData: Latitude and Longitude are raw int32 values in 1e-7
degree units, the float fields are reals. -/
structure GPSPositionData where
  Latitude : ℤ
  Longitude : ℤ
  Altitude : ℝ
  GeoidSeparation : ℝ
  Groundspeed : ℝ
  Heading : ℝ
  Status : GPSStatus

/-- CCGuidanceSettingsData, the fields ccguidance.c reads. The Pitch and Roll
arrays become named fields for their two used indices each. -/
structure CCGuidanceSettingsData where
  UpdatePeriod : Nat
  RadiusBase : ℤ
  GroundspeedMinimal : ℝ
  failesaveEnableRTB : Bool
  HomeLocationSet : Bool
  HomeLocationLatitude : ℤ
  HomeLocationLongitude : ℤ
  HomeLocationAltitude : ℝ
  ReturnTobaseAltitudeOffset : ℝ
  PitchClimb : ℝ
  PitchSink : ℝ
  RollNeutral : ℝ
  RollMax : ℝ

structure FlightStatusData where
  FlightMode : FlightMode
  Armed : Armed
  deriving DecidableEq

/-- StabilizationDesiredData: the fields ccguidance.c touches; the
StabilizationMode array becomes one field per axis. -/
structure StabilizationDesiredData where
  Yaw : ℝ
  Pitch : ℝ
  Roll : ℝ
  Throttle : ℝ
  StabilizationModeYaw : StabMode
  StabilizationModePitch : StabMode
  StabilizationModeRoll : StabMode

/-- The static locals of ccguidanceTask plus the two file-scope statics
(positionHoldLast, calculateCourseStep); they persist across invocations. -/
structure GuidState where
  positionHoldLast : Nat
  calculateCourseStep : Nat
  lastUpdateTime : Nat
  courseTrue : ℝ
  courseRelative : ℝ
  diffHeadingYaw : ℝ
  positionDesiredNorth : ℝ
  positionDesiredEast : ℝ
  positionDesiredDown : ℝ
  positionActualNorth : ℝ
  positionActualEast : ℝ
  DistanceToBase : ℝ
  StateSaveCurrentPositionToRTB : Nat

/-- The initial values of the statics: all zero. -/
noncomputable def initState : GuidState :=
  { positionHoldLast := 0
    calculateCourseStep := 0
    lastUpdateTime := 0
    courseTrue := 0
    courseRelative := 0
    diffHeadingYaw := 0
    positionDesiredNorth := 0
    positionDesiredEast := 0
    positionDesiredDown := 0
    positionActualNorth := 0
    positionActualEast := 0
    DistanceToBase := 0
    StateSaveCurrentPositionToRTB := 0 }

/-- The mutable external UAVObjects and alarms the task reads and may write. -/
structure World where
  settings : CCGuidanceSettingsData
  flightStatus : FlightStatusData
  stabDesired : StabilizationDesiredData
  guidanceAlarm : Alarm

/-- The read-only external inputs of one invocation. -/
structure Env where
  tick : Nat
  airframeType : AirframeType
  manualAlarm : Alarm
  gps : GPSPositionData
  attitudeYaw : ℝ
  manualThrottle : ℝ

/-- The failsafe test of lines 140-141: manual-control alarm not OK and
failesaveEnableRTB set. -/
def failsafeCond (w : World) (e : Env) : Prop :=
  e.manualAlarm ≠ Alarm.ok ∧ w.settings.failesaveEnableRTB = true

instance (w : World) (e : Env) : Decidable (failsafeCond w e) := by
  unfold failsafeCond; infer_instance

/-- The local flightStatus after the failsafe override of lines 139-144. -/
def effectiveFS (w : World) (e : Env) : FlightStatusData :=
  if failsafeCond w e then { w.flightStatus with FlightMode := FlightMode.returnToBase }
  else w.flightStatus

/-- The world after the FlightStatusSet write-back of line 143, which runs
only in the failsafe branch. -/
def effectiveWorld (w : World) (e : Env) : World :=
  if failsafeCond w e then { w with flightStatus := effectiveFS w e } else w

/-- The guard of lines 146-149: Guidance-branch flight mode and a fixed-wing
family airframe. -/
def guardPass (m : FlightMode) (a : AirframeType) : Prop :=
  PARSE_FLIGHT_MODE m = ParsedMode.guidance ∧
  (a = AirframeType.fixedWing ∨ a = AirframeType.fixedWingElevon ∨
   a = AirframeType.fixedWingVTail)

instance (m : FlightMode) (a : AirframeType) : Decidable (guardPass m a) := by
  unfold guardPass; infer_instance

/-- The first target-selection condition, lines 154-155 (without the
positionHoldLast edge test): PositionHold, or ReturnToBase with no home set. -/
def holdCond (m : FlightMode) (settings : CCGuidanceSettingsData) : Prop :=
  m = FlightMode.positionHold ∨
  (m = FlightMode.returnToBase ∧ settings.HomeLocationSet = false)

instance (m : FlightMode) (settings : CCGuidanceSettingsData) :
    Decidable (holdCond m settings) := by
  unfold holdCond; infer_instance

/-- The second target-selection condition, line 162: ReturnToBase with a home
location set. -/
def rtbCond (m : FlightMode) (settings : CCGuidanceSettingsData) : Prop :=
  m = FlightMode.returnToBase ∧ settings.HomeLocationSet = true

instance (m : FlightMode) (settings : CCGuidanceSettingsData) :
    Decidable (rtbCond m settings) := by
  unfold rtbCond; infer_instance

/-- Target selection, lines 154-168: on an edge into the hold phase capture
the current fix (down target: altitude plus geoid separation plus 1 m); on an
edge into the return-to-base phase copy the home location from the settings. -/
noncomputable def targetSelect (settings : CCGuidanceSettingsData) (m : FlightMode)
    (gps : GPSPositionData) (s : GuidState) : GuidState :=
  if s.positionHoldLast ≠ 1 ∧ holdCond m settings then
    { s with positionDesiredNorth := (gps.Latitude : ℝ) * 1e-7
             positionDesiredEast := (gps.Longitude : ℝ) * 1e-7
             positionDesiredDown := gps.Altitude + gps.GeoidSeparation + 1
             positionHoldLast := 1 }
  else if s.positionHoldLast ≠ 2 ∧ rtbCond m settings then
    { s with positionDesiredNorth := (settings.HomeLocationLatitude : ℝ) * 1e-7
             positionDesiredEast := (settings.HomeLocationLongitude : ℝ) * 1e-7
             positionDesiredDown := settings.HomeLocationAltitude +
               settings.ReturnTobaseAltitudeOffset
             positionHoldLast := 2 }
  else s

/-- The home-latch condition of line 187: vehicle disarmed and the latch flag
still zero. -/
def latchCond (a : Armed) (s : GuidState) : Prop :=
  a = Armed.disarmed ∧ s.StateSaveCurrentPositionToRTB = 0

instance (a : Armed) (s : GuidState) : Decidable (latchCond a s) := by
  unfold latchCond; infer_instance

/-- Lines 188-191: the assignments the latch makes to the stack-local copy of
the settings. -/
def latchLocalSettings (settings : CCGuidanceSettingsData) (gps : GPSPositionData) :
    CCGuidanceSettingsData :=
  { settings with HomeLocationLatitude := gps.Latitude
                  HomeLocationLongitude := gps.Longitude
                  HomeLocationAltitude := gps.Altitude
                  HomeLocationSet := true }

/-- The home latch of lines 187-193 happened in the step from s to s2: the
flag StateSaveCurrentPositionToRTB is assigned nowhere else, and always from 0
to 1, together with the capture into the local settings copy. -/
def homeLatchOccurred (s s2 : GuidState) : Prop :=
  s.StateSaveCurrentPositionToRTB = 0 ∧ s2.StateSaveCurrentPositionToRTB = 1

/-- The hold-radius test of line 240: the scaled distance is converted to int
by truncation toward zero (argument conversion at the call of the integer abs
function), passed through abs, and strictly compared with RadiusBase. -/
noncomputable def radiusCheck (d : ℝ) (radiusBase : ℤ) : Prop :=
  |truncF (d * 111111)| > radiusBase

noncomputable instance (d : ℝ) (radiusBase : ℤ) :
    Decidable (radiusCheck d radiusBase) := by
  unfold radiusCheck; infer_instance

/-- Lines 270-274 and 282: manual-throttle passthrough, the
StabilizationDesiredSet publish, and the reset of calculateCourseStep. -/
noncomputable def publish (stab : StabilizationDesiredData) (s : GuidState)
    (w : World) (e : Env) : GuidState × World :=
  ({ s with calculateCourseStep := 0 },
   { w with stabDesired := { stab with Throttle := e.manualThrottle } })

/-- Lines 239-260 followed by the common tail: hold-radius test, yaw from the
recomputed or retained courseRelative, bang-bang pitch, neutral roll, attitude
yaw mode, alarm clear, then publish. -/
noncomputable def finishGuidance (settings : CCGuidanceSettingsData)
    (gps : GPSPositionData) (stab : StabilizationDesiredData) (s : GuidState)
    (w : World) (e : Env) : GuidState × World :=
  let s := if radiusCheck s.DistanceToBase settings.RadiusBase then
      { s with courseRelative := wrap180 (s.courseTrue + s.diffHeadingYaw) }
    else s
  let stab := { stab with Yaw := s.courseRelative }
  let stab := if gps.Altitude + gps.GeoidSeparation < s.positionDesiredDown then
      { stab with Pitch := settings.PitchClimb }
    else
      { stab with Pitch := settings.PitchSink }
  let stab := { stab with Roll := settings.RollNeutral
                          StabilizationModeYaw := StabMode.attitude }
  let w := { w with guidanceAlarm := Alarm.ok }
  publish stab s w e

/-- The guarded guidance branch, lines 151-274: read the GPS fix, select the
target, set roll and pitch stabilization modes to Attitude, then with a 3D fix
run the course-correction switch (steps 0 and 1 return early without touching
the output object), and without one run the fallback. -/
noncomputable def guidedBranch (settings : CCGuidanceSettingsData)
    (flightStatus : FlightStatusData) (s : GuidState) (w : World) (e : Env) :
    GuidState × World :=
  let positionActual := e.gps
  let s := targetSelect settings flightStatus.FlightMode positionActual s
  let stab := { w.stabDesired with StabilizationModeRoll := StabMode.attitude
                                   StabilizationModePitch := StabMode.attitude }
  if positionActual.Status = GPSStatus.fix3D then
    match s.calculateCourseStep with
    | 0 =>
      let s := { s with positionActualNorth := (positionActual.Latitude : ℝ) * 1e-7
                        positionActualEast := (positionActual.Longitude : ℝ) * 1e-7 }
      let sAndLocal :=
        if latchCond flightStatus.Armed s then
          ({ s with StateSaveCurrentPositionToRTB := 1 },
           latchLocalSettings settings positionActual)
        else (s, settings)
      let s := sAndLocal.1
      -- sAndLocal.2 is the stack-local settings copy of the C code; the
      -- function returns on the next line and drops it, exactly as the C
      -- does, since ccguidance.c contains no CCGuidanceSettingsSet call that
      -- would persist it into the settings object.
      ({ s with calculateCourseStep := s.calculateCourseStep + 1 }, w)
    | 1 =>
      let d := sphereDistance s.positionActualNorth s.positionActualEast
          s.positionDesiredNorth s.positionDesiredEast
      let s := { s with DistanceToBase := d }
      let s := if positionActual.Groundspeed > settings.GroundspeedMinimal then
          { s with diffHeadingYaw := wrap180 (e.attitudeYaw - positionActual.Heading) }
        else s
      ({ s with calculateCourseStep := s.calculateCourseStep + 1 }, w)
    | 2 =>
      let c := sphereCourse s.positionActualNorth s.positionActualEast
          s.positionDesiredNorth s.positionDesiredEast s.DistanceToBase
      let s := { s with courseTrue := c }
      finishGuidance settings positionActual stab s w e
    | _ =>
      -- a switch value with no case label skips the switch body in C
      finishGuidance settings positionActual stab s w e
  else
    let stab := { stab with Yaw := 0
                            Pitch := settings.PitchClimb
                            Roll := settings.RollMax
                            StabilizationModeYaw := StabMode.rate }
    let w := { w with guidanceAlarm := Alarm.warning }
    publish stab s w e

/-- Lines 136-282: the body of an invocation that passed the rate gate, with
lastUpdateTime already advanced to the current tick. The guard-failure exit
resets positionHoldLast, clears the guidance alarm, resets the course step,
and never touches the output object. -/
noncomputable def gatedBody (s : GuidState) (w : World) (e : Env) : GuidState × World :=
  let flightStatus := effectiveFS w e
  let w := effectiveWorld w e
  if guardPass flightStatus.FlightMode e.airframeType then
    guidedBranch w.settings flightStatus s w e
  else
    ({ s with positionHoldLast := 0, calculateCourseStep := 0 },
     { w with guidanceAlarm := Alarm.ok })

/-- The rate gate of lines 125-130 passes: the elapsed ticks since the
effective lastUpdateTime (initialized to the current tick while still zero)
are not below UpdatePeriod / portTICK_RATE_MS. -/
def ratePasses (s : GuidState) (w : World) (e : Env) : Prop :=
  ¬ (sub32 e.tick (if s.lastUpdateTime = 0 then e.tick else s.lastUpdateTime)
      < w.settings.UpdatePeriod / portTICK_RATE_MS)

instance (s : GuidState) (w : World) (e : Env) : Decidable (ratePasses s w e) := by
  unfold ratePasses; infer_instance

/-- ccguidanceTask of ccguidance.c, one invocation: a cycle blocked by the
rate gate only records the effective lastUpdateTime; a gated cycle stores the
current tick into lastUpdateTime and runs the body. -/
noncomputable def ccguidanceTask (s : GuidState) (w : World) (e : Env) :
    GuidState × World :=
  if ratePasses s w e then gatedBody { s with lastUpdateTime := e.tick } w e
  else
    ({ s with lastUpdateTime := if s.lastUpdateTime = 0 then e.tick else s.lastUpdateTime },
     w)

/-! Structural lemmas about the embedding. -/

/-- A 3D fix at 55.555 degrees north, 37.33 degrees east, stationary. -/
noncomputable def gps0 : GPSPositionData :=
  { Latitude := 555550000
    Longitude := 373300000
    Altitude := 50
    GeoidSeparation := 2
    Groundspeed := 0
    Heading := 0
    Status := GPSStatus.fix3D }

/-- Settings with update period zero (every invocation passes the rate gate)
and no home location set. -/
noncomputable def settingsBase : CCGuidanceSettingsData :=
  { UpdatePeriod := 0
    RadiusBase := 5
    GroundspeedMinimal := 1
    failesaveEnableRTB := false
    HomeLocationSet := false
    HomeLocationLatitude := 0
    HomeLocationLongitude := 0
    HomeLocationAltitude := 0
    ReturnTobaseAltitudeOffset := 10
    PitchClimb := 8
    PitchSink := -8
    RollNeutral := 0
    RollMax := 30 }

/-- An output object holding sentinel values, to make overwrites visible. -/
noncomputable def stabSentinel : StabilizationDesiredData :=
  { Yaw := 7
    Pitch := 7
    Roll := 7
    Throttle := 7
    StabilizationModeYaw := StabMode.rate
    StabilizationModePitch := StabMode.rate
    StabilizationModeRoll := StabMode.rate }

/-- World: PositionHold mode, disarmed, settings without a home location. -/
noncomputable def world1 : World :=
  { settings := settingsBase
    flightStatus := { FlightMode := FlightMode.positionHold, Armed := Armed.disarmed }
    stabDesired := stabSentinel
    guidanceAlarm := Alarm.error }

/-- Env: fixed-wing airframe, healthy manual control, the fix gps0. -/
noncomputable def env1 : Env :=
  { tick := 0
    airframeType := AirframeType.fixedWing
    manualAlarm := Alarm.ok
    gps := gps0
    attitudeYaw := 0
    manualThrottle := 3 }

/-- World for the C6 witness: Manual flight mode, everything else healthy. -/
noncomputable def c6world : World :=
  { settings := settingsBase
    flightStatus := { FlightMode := FlightMode.manual, Armed := Armed.armed }
    stabDesired := stabSentinel
    guidanceAlarm := Alarm.warning }

/-- Env for the C7 witness: a fix without 3D quality. -/
noncomputable def c7env : Env :=
  { env1 with gps := { gps0 with Status := GPSStatus.noFix } }

/-- World for the C7 witness: PositionHold mode (Guidance branch). -/
noncomputable def c7world : World :=
  { settings := settingsBase
    flightStatus := { FlightMode := FlightMode.positionHold, Armed := Armed.armed }
    stabDesired := stabSentinel
    guidanceAlarm := Alarm.ok }

/-- World for the C8 witness: Manual mode, failsafe enabled. -/
noncomputable def c8world : World :=
  { settings := { settingsBase with failesaveEnableRTB := true }
    flightStatus := { FlightMode := FlightMode.manual, Armed := Armed.armed }
    stabDesired := stabSentinel
    guidanceAlarm := Alarm.ok }

/-- Env for the C8 witness: manual-control alarm at Error. -/
noncomputable def c8env : Env := { env1 with manualAlarm := Alarm.error }

/-- State for the C5 witness second conjunct: already in the hold phase. -/
noncomputable def c5state : GuidState := { initState with positionHoldLast := 1 }

/-- State after the first cycle of the C2 counterexample trace: the first
disarmed step-0 cycle, which latches. -/
noncomputable def c2s1 : GuidState := (ccguidanceTask initState world1 env1).1

/-- World for the second cycle: externally switched to Manual mode and
armed. -/
noncomputable def c2w2 : World :=
  { (ccguidanceTask initState world1 env1).2 with
    flightStatus := { FlightMode := FlightMode.manual, Armed := Armed.armed } }

/-- State after the second (armed, guard-failing) cycle. -/
noncomputable def c2s2 : GuidState := (ccguidanceTask c2s1 c2w2 env1).1

/-- World for the third cycle: externally switched back to PositionHold and
disarmed again. -/
noncomputable def c2w3 : World :=
  { (ccguidanceTask c2s1 c2w2 env1).2 with
    flightStatus := { FlightMode := FlightMode.positionHold, Armed := Armed.disarmed } }

/-- State after the third cycle: a disarmed processing cycle at step 0, which
the claim says must latch again after the intervening arm. -/
noncomputable def c2s3 : GuidState := (ccguidanceTask c2s2 c2w3 env1).1

/-- State for the C9 counterexample and witnesses: at course step 1, in the
hold phase, with a sentinel stored distance. -/
noncomputable def c9s : GuidState :=
  { initState with calculateCourseStep := 1
                   positionHoldLast := 1
                   DistanceToBase := 999 }

/-- State at course step 2 for the step-2 witnesses. -/
noncomputable def c9s2 : GuidState := { c9s with calculateCourseStep := 2 }

/-- Env with groundspeed above the configured minimum, for the step-1
heading-error branch of the C9 witness. -/
noncomputable def c9fastEnv : Env := { env1 with gps := { gps0 with Groundspeed := 5 } }

/-- State for the C10 witness: at step 2, inside the hold radius (stored
distance 0), with a sentinel retained courseRelative. -/
noncomputable def c10s : GuidState :=
  { initState with calculateCourseStep := 2
                   positionHoldLast := 1
                   courseRelative := 42 }

/-! Theorems. Structural lemmas about the embedding come first, then the
claim theorems with their witnesses and counterexamples. -/

/-- wrapNeg is the identity when the loop guard x < -180 fails, as the C loop
does not run. -/
theorem wrapNeg_id (x : ℝ) (h : ¬ x < -180) : wrapNeg x = x := if_neg h

/-- wrapNeg satisfies the unfolding of one C loop iteration: when the guard
holds, its value is the value at x + 360. Together with wrapNeg_id this
characterizes the loop while (x < -180) x += 360. -/
theorem wrapNeg_step (x : ℝ) (h : x < -180) : wrapNeg x = wrapNeg (x + 360) := by
  unfold wrapNeg
  rw [if_pos h]
  by_cases h2 : x + 360 < -180
  · rw [if_pos h2,
      show (-180 - (x + 360)) / 360 = (-180 - x) / 360 - 1 by ring,
      Int.ceil_sub_one]
    push_cast
    ring
  · rw [if_neg h2]
    have hc : ⌈(-180 - x) / 360⌉ = 1 := by
      rw [Int.ceil_eq_iff]
      constructor
      · push_cast
        have hpos : (0 : ℝ) < -180 - x := by linarith
        have : (0 : ℝ) < (-180 - x) / 360 := by positivity
        linarith
      · push_cast
        rw [div_le_one (by norm_num : (0 : ℝ) < 360)]
        linarith
    rw [hc]
    push_cast
    ring

/-- wrapPos is the identity when the loop guard x > 180 fails. -/
theorem wrapPos_id (x : ℝ) (h : ¬ 180 < x) : wrapPos x = x := if_neg h

/-- wrapPos satisfies the unfolding of one C loop iteration: when the guard
holds, its value is the value at x - 360. Together with wrapPos_id this
characterizes the loop while (x > 180) x -= 360. -/
theorem wrapPos_step (x : ℝ) (h : 180 < x) : wrapPos x = wrapPos (x - 360) := by
  unfold wrapPos
  rw [if_pos h]
  by_cases h2 : (180 : ℝ) < x - 360
  · rw [if_pos h2,
      show (x - 360 - 180) / 360 = (x - 180) / 360 - 1 by ring,
      Int.ceil_sub_one]
    push_cast
    ring
  · rw [if_neg h2]
    have hc : ⌈(x - 180) / 360⌉ = 1 := by
      rw [Int.ceil_eq_iff]
      constructor
      · push_cast
        have hpos : (0 : ℝ) < x - 180 := by linarith
        have : (0 : ℝ) < (x - 180) / 360 := by positivity
        linarith
      · push_cast
        rw [div_le_one (by norm_num : (0 : ℝ) < 360)]
        linarith
    rw [hc]
    push_cast
    ring

theorem effectiveWorld_settings (w : World) (e : Env) :
    (effectiveWorld w e).settings = w.settings := by
  unfold effectiveWorld; split <;> rfl

theorem effectiveWorld_stab (w : World) (e : Env) :
    (effectiveWorld w e).stabDesired = w.stabDesired := by
  unfold effectiveWorld; split <;> rfl

theorem effectiveWorld_alarm (w : World) (e : Env) :
    (effectiveWorld w e).guidanceAlarm = w.guidanceAlarm := by
  unfold effectiveWorld; split <;> rfl

/-- ccguidance.c contains no CCGuidanceSettingsSet call, so no invocation ever
changes the settings object of the world. -/
theorem task_settings_unchanged (s : GuidState) (w : World) (e : Env) :
    (ccguidanceTask s w e).2.settings = w.settings := by
  unfold ccguidanceTask gatedBody guidedBranch finishGuidance publish
  dsimp only
  repeat' first
    | rfl
    | exact effectiveWorld_settings w e
    | split

theorem effectiveFS_Armed (w : World) (e : Env) :
    (effectiveFS w e).Armed = w.flightStatus.Armed := by
  unfold effectiveFS; split <;> rfl

theorem targetSelect_calculateCourseStep (st : CCGuidanceSettingsData)
    (m : FlightMode) (g : GPSPositionData) (s : GuidState) :
    (targetSelect st m g s).calculateCourseStep = s.calculateCourseStep := by
  unfold targetSelect; split_ifs <;> rfl

theorem targetSelect_StateSave (st : CCGuidanceSettingsData)
    (m : FlightMode) (g : GPSPositionData) (s : GuidState) :
    (targetSelect st m g s).StateSaveCurrentPositionToRTB =
      s.StateSaveCurrentPositionToRTB := by
  unfold targetSelect; split_ifs <;> rfl

theorem targetSelect_courseRelative (st : CCGuidanceSettingsData)
    (m : FlightMode) (g : GPSPositionData) (s : GuidState) :
    (targetSelect st m g s).courseRelative = s.courseRelative := by
  unfold targetSelect; split_ifs <;> rfl

theorem targetSelect_courseTrue (st : CCGuidanceSettingsData)
    (m : FlightMode) (g : GPSPositionData) (s : GuidState) :
    (targetSelect st m g s).courseTrue = s.courseTrue := by
  unfold targetSelect; split_ifs <;> rfl

theorem targetSelect_diffHeadingYaw (st : CCGuidanceSettingsData)
    (m : FlightMode) (g : GPSPositionData) (s : GuidState) :
    (targetSelect st m g s).diffHeadingYaw = s.diffHeadingYaw := by
  unfold targetSelect; split_ifs <;> rfl

theorem targetSelect_DistanceToBase (st : CCGuidanceSettingsData)
    (m : FlightMode) (g : GPSPositionData) (s : GuidState) :
    (targetSelect st m g s).DistanceToBase = s.DistanceToBase := by
  unfold targetSelect; split_ifs <;> rfl

theorem targetSelect_positionActualNorth (st : CCGuidanceSettingsData)
    (m : FlightMode) (g : GPSPositionData) (s : GuidState) :
    (targetSelect st m g s).positionActualNorth = s.positionActualNorth := by
  unfold targetSelect; split_ifs <;> rfl

theorem targetSelect_positionActualEast (st : CCGuidanceSettingsData)
    (m : FlightMode) (g : GPSPositionData) (s : GuidState) :
    (targetSelect st m g s).positionActualEast = s.positionActualEast := by
  unfold targetSelect; split_ifs <;> rfl

/-! Concrete inputs used by the witnesses and counterexamples. -/

/-- C1: the claim states that the latched home location together with
homeLocationSet = true is written back to the external settings store, so that
the settings read at the start of the next cycle contain it. The code writes
only the stack-local copy of the settings and never calls a settings Set
function. Evaluated at a failing input: a gated cycle in which the step-0
latch condition holds and the latch runs (the flag goes 0 to 1), yet the
settings object of the world is unchanged, with HomeLocationSet still false
for the next read. -/
theorem C1_homeLatch_not_persisted :
    homeLatchOccurred initState (ccguidanceTask initState world1 env1).1 ∧
    (ccguidanceTask initState world1 env1).2.settings = world1.settings ∧
    (ccguidanceTask initState world1 env1).2.settings.HomeLocationSet = false := by
  refine ⟨?_, task_settings_unchanged _ _ _, ?_⟩
  · simp [ccguidanceTask, ratePasses, sub32, gatedBody, effectiveFS, effectiveWorld,
      failsafeCond, guardPass, PARSE_FLIGHT_MODE, guidedBranch, targetSelect, holdCond,
      rtbCond, latchCond, homeLatchOccurred, initState, world1, env1, settingsBase,
      gps0, stabSentinel, portTICK_RATE_MS]
  · rw [task_settings_unchanged]
    rfl

/-- C6: for every gated cycle in which the guard fails (flight mode not in the
Guidance branch, or airframe not in the fixed-wing family), the stabilization
setpoint object is not written, the guidance alarm is cleared, and the
position-hold phase is reset to its initial value 0. -/
theorem C6_guardFail_frame (s : GuidState) (w : World) (e : Env)
    (hr : ratePasses s w e)
    (hg : ¬ guardPass (effectiveFS w e).FlightMode e.airframeType) :
    (ccguidanceTask s w e).2.stabDesired = w.stabDesired ∧
    (ccguidanceTask s w e).2.guidanceAlarm = Alarm.ok ∧
    (ccguidanceTask s w e).1.positionHoldLast = 0 := by
  unfold ccguidanceTask gatedBody
  rw [if_pos hr]
  dsimp only
  rw [if_neg hg]
  exact ⟨effectiveWorld_stab w e, rfl, rfl⟩

theorem C6_guardFail_frame_witness :
    ratePasses initState c6world env1 ∧
    ¬ guardPass (effectiveFS c6world env1).FlightMode env1.airframeType ∧
    ((ccguidanceTask initState c6world env1).2.stabDesired = c6world.stabDesired ∧
     (ccguidanceTask initState c6world env1).2.guidanceAlarm = Alarm.ok ∧
     (ccguidanceTask initState c6world env1).1.positionHoldLast = 0) := by
  have hr : ratePasses initState c6world env1 := by
    simp [ratePasses, sub32, initState, c6world, env1, settingsBase, portTICK_RATE_MS]
  have hg : ¬ guardPass (effectiveFS c6world env1).FlightMode env1.airframeType := by
    simp [guardPass, effectiveFS, failsafeCond, c6world, env1, PARSE_FLIGHT_MODE]
  exact ⟨hr, hg, C6_guardFail_frame initState c6world env1 hr hg⟩

/-- C7: for every gated cycle with the guard passed and fix quality not Fix3D,
the setpoint published in that same cycle has yaw 0, pitch the configured
climb pitch, roll the configured max roll, yaw stabilization mode Rate, and
the guidance alarm is raised at Warning level. -/
theorem C7_noFix_fallback (s : GuidState) (w : World) (e : Env)
    (hr : ratePasses s w e)
    (hg : guardPass (effectiveFS w e).FlightMode e.airframeType)
    (hf : ¬ e.gps.Status = GPSStatus.fix3D) :
    (ccguidanceTask s w e).2.stabDesired.Yaw = 0 ∧
    (ccguidanceTask s w e).2.stabDesired.Pitch = w.settings.PitchClimb ∧
    (ccguidanceTask s w e).2.stabDesired.Roll = w.settings.RollMax ∧
    (ccguidanceTask s w e).2.stabDesired.StabilizationModeYaw = StabMode.rate ∧
    (ccguidanceTask s w e).2.guidanceAlarm = Alarm.warning := by
  unfold ccguidanceTask gatedBody guidedBranch publish
  rw [if_pos hr]
  dsimp only
  rw [if_pos hg, if_neg hf]
  refine ⟨rfl, ?_, ?_, rfl, rfl⟩ <;> rw [effectiveWorld_settings]

theorem C7_noFix_fallback_witness :
    ratePasses initState c7world c7env ∧
    guardPass (effectiveFS c7world c7env).FlightMode c7env.airframeType ∧
    ¬ c7env.gps.Status = GPSStatus.fix3D ∧
    ((ccguidanceTask initState c7world c7env).2.stabDesired.Yaw = 0 ∧
     (ccguidanceTask initState c7world c7env).2.stabDesired.Pitch = c7world.settings.PitchClimb ∧
     (ccguidanceTask initState c7world c7env).2.stabDesired.Roll = c7world.settings.RollMax ∧
     (ccguidanceTask initState c7world c7env).2.stabDesired.StabilizationModeYaw = StabMode.rate ∧
     (ccguidanceTask initState c7world c7env).2.guidanceAlarm = Alarm.warning) := by
  have hr : ratePasses initState c7world c7env := by
    simp [ratePasses, sub32, initState, c7world, c7env, env1, settingsBase, portTICK_RATE_MS]
  have hg : guardPass (effectiveFS c7world c7env).FlightMode c7env.airframeType := by
    simp [guardPass, effectiveFS, failsafeCond, c7world, c7env, env1, PARSE_FLIGHT_MODE]
  have hf : ¬ c7env.gps.Status = GPSStatus.fix3D := by
    simp [c7env, env1, gps0]
  exact ⟨hr, hg, hf, C7_noFix_fallback initState c7world c7env hr hg hf⟩

theorem effectiveFS_rtb_eq (w : World) (e : Env)
    (ha : e.manualAlarm ≠ Alarm.ok) (hf : w.settings.failesaveEnableRTB = true) :
    effectiveFS { w with flightStatus :=
        { w.flightStatus with FlightMode := FlightMode.returnToBase } } e =
      effectiveFS w e := by
  unfold effectiveFS
  rw [if_pos ⟨ha, hf⟩, if_pos ⟨ha, hf⟩]

theorem effectiveWorld_rtb_eq (w : World) (e : Env)
    (ha : e.manualAlarm ≠ Alarm.ok) (hf : w.settings.failesaveEnableRTB = true) :
    effectiveWorld { w with flightStatus :=
        { w.flightStatus with FlightMode := FlightMode.returnToBase } } e =
      effectiveWorld w e := by
  unfold effectiveWorld
  rw [if_pos ⟨ha, hf⟩, if_pos ⟨ha, hf⟩, effectiveFS_rtb_eq w e ha hf]

/-- C8: in every gated cycle in which the manual-control alarm is not OK and
failsafe return-to-base is enabled, the forced ReturnToBase mode is written
back to the flight-status store, and the cycle behaves exactly as it would
with the flight mode already ReturnToBase (the override precedes the guard). -/
theorem C8_failsafe_override (s : GuidState) (w : World) (e : Env)
    (hr : ratePasses s w e)
    (ha : e.manualAlarm ≠ Alarm.ok)
    (hf : w.settings.failesaveEnableRTB = true) :
    (ccguidanceTask s w e).2.flightStatus.FlightMode = FlightMode.returnToBase ∧
    ccguidanceTask s w e =
      ccguidanceTask s { w with flightStatus :=
        { w.flightStatus with FlightMode := FlightMode.returnToBase } } e := by
  constructor
  · have hfs : (ccguidanceTask s w e).2.flightStatus = (effectiveWorld w e).flightStatus := by
      unfold ccguidanceTask gatedBody guidedBranch finishGuidance publish
      rw [if_pos hr]
      dsimp only
      repeat' first
        | rfl
        | split
    rw [hfs]
    unfold effectiveWorld effectiveFS
    rw [if_pos ⟨ha, hf⟩, if_pos ⟨ha, hf⟩]
  · have hr2 : ratePasses s { w with flightStatus :=
        { w.flightStatus with FlightMode := FlightMode.returnToBase } } e := hr
    unfold ccguidanceTask
    rw [if_pos hr, if_pos hr2]
    unfold gatedBody
    rw [effectiveFS_rtb_eq w e ha hf, effectiveWorld_rtb_eq w e ha hf]

theorem C8_failsafe_override_witness :
    ratePasses initState c8world c8env ∧
    c8env.manualAlarm ≠ Alarm.ok ∧
    c8world.settings.failesaveEnableRTB = true ∧
    ((ccguidanceTask initState c8world c8env).2.flightStatus.FlightMode =
       FlightMode.returnToBase ∧
     ccguidanceTask initState c8world c8env =
       ccguidanceTask initState { c8world with flightStatus :=
         { c8world.flightStatus with FlightMode := FlightMode.returnToBase } } c8env) := by
  have hr : ratePasses initState c8world c8env := by
    simp [ratePasses, sub32, initState, c8world, c8env, env1, settingsBase, portTICK_RATE_MS]
  have ha : c8env.manualAlarm ≠ Alarm.ok := by
    simp [c8env, env1]
  have hf : c8world.settings.failesaveEnableRTB = true := by
    simp [c8world, settingsBase]
  exact ⟨hr, ha, hf, C8_failsafe_override initState c8world c8env hr ha hf⟩

/-- The course step after a gated guard-passing 3D-fix cycle: 0 goes to 1,
1 goes to 2, anything else (2 completing, or an out-of-range value skipping
the switch) is reset to 0 by the assignment after the guard block. -/
theorem task_step_eq (s : GuidState) (w : World) (e : Env)
    (hr : ratePasses s w e)
    (hg : guardPass (effectiveFS w e).FlightMode e.airframeType)
    (hf : e.gps.Status = GPSStatus.fix3D) :
    (ccguidanceTask s w e).1.calculateCourseStep =
      if s.calculateCourseStep = 0 then 1
      else if s.calculateCourseStep = 1 then 2 else 0 := by
  unfold ccguidanceTask gatedBody guidedBranch finishGuidance publish
  rw [if_pos hr]
  dsimp only
  rw [if_pos hg, if_pos hf]
  split
  case h_1 heq =>
    rw [targetSelect_calculateCourseStep] at heq
    dsimp only at heq
    split <;> simp [targetSelect_calculateCourseStep, heq]
  case h_2 heq =>
    rw [targetSelect_calculateCourseStep] at heq
    dsimp only at heq
    split <;> simp [targetSelect_calculateCourseStep, heq]
  case h_3 heq =>
    rw [targetSelect_calculateCourseStep] at heq
    dsimp only at heq
    simp [heq]
  case h_4 h0 h1 h2 =>
    rw [targetSelect_calculateCourseStep] at h0 h1
    dsimp only at h0 h1
    rw [if_neg h0, if_neg h1]

/-- A gated guard-failing cycle resets the course step to 0. -/
theorem task_step_guardFail (s : GuidState) (w : World) (e : Env)
    (hr : ratePasses s w e)
    (hg : ¬ guardPass (effectiveFS w e).FlightMode e.airframeType) :
    (ccguidanceTask s w e).1.calculateCourseStep = 0 := by
  unfold ccguidanceTask gatedBody
  rw [if_pos hr]
  dsimp only
  rw [if_neg hg]

/-- A gated guard-passing cycle without a 3D fix resets the course step to 0. -/
theorem task_step_noFix (s : GuidState) (w : World) (e : Env)
    (hr : ratePasses s w e)
    (hg : guardPass (effectiveFS w e).FlightMode e.airframeType)
    (hf : ¬ e.gps.Status = GPSStatus.fix3D) :
    (ccguidanceTask s w e).1.calculateCourseStep = 0 := by
  unfold ccguidanceTask gatedBody guidedBranch publish
  rw [if_pos hr]
  dsimp only
  rw [if_pos hg, if_neg hf]

/-- A rate-gate-blocked invocation changes no state but lastUpdateTime. -/
theorem task_nonGated (s : GuidState) (w : World) (e : Env)
    (hr : ¬ ratePasses s w e) :
    ccguidanceTask s w e =
      ({ s with lastUpdateTime := if s.lastUpdateTime = 0 then e.tick else s.lastUpdateTime },
       w) := by
  unfold ccguidanceTask
  rw [if_neg hr]

/-- C4: the course-step counter advances 0 to 1 to 2 with exactly one
transition per gated cycle in which the guard passes with a 3D fix, and is
reset to 0 whenever step 2 completes (the else branch of the transition
formula), whenever the guard fails, and whenever the fix is not 3D; a blocked
invocation changes nothing, so starting from the initial 0 the counter is in
the set 0,1,2 at the start of every gated update. -/
theorem C4_courseStep (s : GuidState) (w : World) (e : Env) :
    (ratePasses s w e →
       guardPass (effectiveFS w e).FlightMode e.airframeType →
       e.gps.Status = GPSStatus.fix3D →
       (ccguidanceTask s w e).1.calculateCourseStep =
         (if s.calculateCourseStep = 0 then 1
          else if s.calculateCourseStep = 1 then 2 else 0)) ∧
    (ratePasses s w e →
       (¬ guardPass (effectiveFS w e).FlightMode e.airframeType ∨
        ¬ e.gps.Status = GPSStatus.fix3D) →
       (ccguidanceTask s w e).1.calculateCourseStep = 0) ∧
    (ratePasses s w e →
       ((ccguidanceTask s w e).1.calculateCourseStep = 0 ∨
        (ccguidanceTask s w e).1.calculateCourseStep = 1 ∨
        (ccguidanceTask s w e).1.calculateCourseStep = 2)) ∧
    (¬ ratePasses s w e →
       (ccguidanceTask s w e).1.calculateCourseStep = s.calculateCourseStep) ∧
    initState.calculateCourseStep = 0 := by
  refine ⟨fun hr hg hf => task_step_eq s w e hr hg hf, ?_, ?_, ?_, rfl⟩
  · rintro hr (hg | hf)
    · exact task_step_guardFail s w e hr hg
    · by_cases hg2 : guardPass (effectiveFS w e).FlightMode e.airframeType
      · exact task_step_noFix s w e hr hg2 hf
      · exact task_step_guardFail s w e hr hg2
  · intro hr
    by_cases hg : guardPass (effectiveFS w e).FlightMode e.airframeType
    · by_cases hf : e.gps.Status = GPSStatus.fix3D
      · rw [task_step_eq s w e hr hg hf]
        split_ifs <;> simp
      · simp [task_step_noFix s w e hr hg hf]
    · simp [task_step_guardFail s w e hr hg]
  · intro hr
    rw [task_nonGated s w e hr]

theorem C4_courseStep_witness :
    ratePasses initState world1 env1 ∧
    guardPass (effectiveFS world1 env1).FlightMode env1.airframeType ∧
    env1.gps.Status = GPSStatus.fix3D ∧
    (ccguidanceTask initState world1 env1).1.calculateCourseStep = 1 := by
  have hr : ratePasses initState world1 env1 := by
    simp [ratePasses, sub32, initState, world1, env1, settingsBase, portTICK_RATE_MS]
  have hg : guardPass (effectiveFS world1 env1).FlightMode env1.airframeType := by
    simp [guardPass, effectiveFS, failsafeCond, world1, env1, PARSE_FLIGHT_MODE]
  have hf : env1.gps.Status = GPSStatus.fix3D := by
    simp [env1, gps0]
  refine ⟨hr, hg, hf, ?_⟩
  rw [(C4_courseStep initState world1 env1).1 hr hg hf]
  simp [initState]

/-- Nothing after target selection in a gated guard-passing cycle writes the
desired-position fields or positionHoldLast: the task result carries the
targetSelect values unchanged. -/
theorem task_afterSelect (s : GuidState) (w : World) (e : Env)
    (hr : ratePasses s w e)
    (hg : guardPass (effectiveFS w e).FlightMode e.airframeType) :
    (ccguidanceTask s w e).1.positionDesiredNorth =
      (targetSelect (effectiveWorld w e).settings (effectiveFS w e).FlightMode e.gps
        { s with lastUpdateTime := e.tick }).positionDesiredNorth ∧
    (ccguidanceTask s w e).1.positionDesiredEast =
      (targetSelect (effectiveWorld w e).settings (effectiveFS w e).FlightMode e.gps
        { s with lastUpdateTime := e.tick }).positionDesiredEast ∧
    (ccguidanceTask s w e).1.positionDesiredDown =
      (targetSelect (effectiveWorld w e).settings (effectiveFS w e).FlightMode e.gps
        { s with lastUpdateTime := e.tick }).positionDesiredDown ∧
    (ccguidanceTask s w e).1.positionHoldLast =
      (targetSelect (effectiveWorld w e).settings (effectiveFS w e).FlightMode e.gps
        { s with lastUpdateTime := e.tick }).positionHoldLast := by
  unfold ccguidanceTask gatedBody guidedBranch finishGuidance publish
  rw [if_pos hr]
  dsimp only
  rw [if_pos hg]
  refine ⟨?_, ?_, ?_, ?_⟩ <;>
    repeat' first
      | rfl
      | split

/-- On an edge into the hold phase (positionHoldLast not 1 and the hold
condition), targetSelect captures the fix. -/
theorem targetSelect_capture (st : CCGuidanceSettingsData) (m : FlightMode)
    (g : GPSPositionData) (s : GuidState)
    (h1 : s.positionHoldLast ≠ 1) (h2 : holdCond m st) :
    targetSelect st m g s =
      { s with positionDesiredNorth := (g.Latitude : ℝ) * 1e-7
               positionDesiredEast := (g.Longitude : ℝ) * 1e-7
               positionDesiredDown := g.Altitude + g.GeoidSeparation + 1
               positionHoldLast := 1 } := by
  unfold targetSelect
  rw [if_pos ⟨h1, h2⟩]

/-- While positionHoldLast is already 1 and the hold condition holds,
targetSelect changes nothing. -/
theorem targetSelect_hold_idem (st : CCGuidanceSettingsData) (m : FlightMode)
    (g : GPSPositionData) (s : GuidState)
    (h1 : s.positionHoldLast = 1) (h2 : holdCond m st) :
    targetSelect st m g s = s := by
  unfold targetSelect
  rw [if_neg fun h => h.1 h1, if_neg ?_]
  rintro ⟨-, hm, hset⟩
  rcases h2 with hPH | ⟨-, hns⟩
  · rw [hPH] at hm
    exact FlightMode.noConfusion hm
  · rw [hns] at hset
    exact Bool.noConfusion hset

/-- C5: on the rising edge into the hold phase (PositionHold, or ReturnToBase
with home not set) the current fix is captured as the desired target with
target altitude = current altitude + geoid separation + 1 m; repeated cycles
in the hold phase leave the desired target unchanged; a guard-failing cycle
resets the phase so that re-entering re-captures. -/
theorem C5_positionHold_capture (s : GuidState) (w : World) (e : Env)
    (hr : ratePasses s w e) :
    (guardPass (effectiveFS w e).FlightMode e.airframeType →
     s.positionHoldLast ≠ 1 →
     holdCond (effectiveFS w e).FlightMode w.settings →
       (ccguidanceTask s w e).1.positionDesiredNorth = (e.gps.Latitude : ℝ) * 1e-7 ∧
       (ccguidanceTask s w e).1.positionDesiredEast = (e.gps.Longitude : ℝ) * 1e-7 ∧
       (ccguidanceTask s w e).1.positionDesiredDown =
         e.gps.Altitude + e.gps.GeoidSeparation + 1 ∧
       (ccguidanceTask s w e).1.positionHoldLast = 1) ∧
    (guardPass (effectiveFS w e).FlightMode e.airframeType →
     s.positionHoldLast = 1 →
     holdCond (effectiveFS w e).FlightMode w.settings →
       (ccguidanceTask s w e).1.positionDesiredNorth = s.positionDesiredNorth ∧
       (ccguidanceTask s w e).1.positionDesiredEast = s.positionDesiredEast ∧
       (ccguidanceTask s w e).1.positionDesiredDown = s.positionDesiredDown ∧
       (ccguidanceTask s w e).1.positionHoldLast = 1) ∧
    (¬ guardPass (effectiveFS w e).FlightMode e.airframeType →
       (ccguidanceTask s w e).1.positionHoldLast = 0) := by
  refine ⟨?_, ?_, ?_⟩
  · intro hg h1 hh
    obtain ⟨hN, hE, hD, hL⟩ := task_afterSelect s w e hr hg
    rw [effectiveWorld_settings] at hN hE hD hL
    have h1b : ({ s with lastUpdateTime := e.tick } : GuidState).positionHoldLast ≠ 1 := h1
    rw [targetSelect_capture w.settings (effectiveFS w e).FlightMode e.gps
      { s with lastUpdateTime := e.tick } h1b hh] at hN hE hD hL
    exact ⟨hN, hE, hD, hL⟩
  · intro hg h1 hh
    obtain ⟨hN, hE, hD, hL⟩ := task_afterSelect s w e hr hg
    rw [effectiveWorld_settings] at hN hE hD hL
    have h1b : ({ s with lastUpdateTime := e.tick } : GuidState).positionHoldLast = 1 := h1
    rw [targetSelect_hold_idem w.settings (effectiveFS w e).FlightMode e.gps
      { s with lastUpdateTime := e.tick } h1b hh] at hN hE hD hL
    exact ⟨hN, hE, hD, by rw [hL]; exact h1⟩
  · intro hg
    unfold ccguidanceTask gatedBody
    rw [if_pos hr]
    dsimp only
    rw [if_neg hg]

theorem C5_positionHold_capture_witness :
    (ratePasses initState world1 env1 ∧
     guardPass (effectiveFS world1 env1).FlightMode env1.airframeType ∧
     initState.positionHoldLast ≠ 1 ∧
     holdCond (effectiveFS world1 env1).FlightMode world1.settings ∧
     ((ccguidanceTask initState world1 env1).1.positionDesiredNorth =
        (env1.gps.Latitude : ℝ) * 1e-7 ∧
      (ccguidanceTask initState world1 env1).1.positionDesiredEast =
        (env1.gps.Longitude : ℝ) * 1e-7 ∧
      (ccguidanceTask initState world1 env1).1.positionDesiredDown =
        env1.gps.Altitude + env1.gps.GeoidSeparation + 1 ∧
      (ccguidanceTask initState world1 env1).1.positionHoldLast = 1)) ∧
    (c5state.positionHoldLast = 1 ∧
     ((ccguidanceTask c5state world1 env1).1.positionDesiredNorth =
        c5state.positionDesiredNorth ∧
      (ccguidanceTask c5state world1 env1).1.positionDesiredEast =
        c5state.positionDesiredEast ∧
      (ccguidanceTask c5state world1 env1).1.positionDesiredDown =
        c5state.positionDesiredDown ∧
      (ccguidanceTask c5state world1 env1).1.positionHoldLast = 1)) ∧
    (¬ guardPass (effectiveFS c6world env1).FlightMode env1.airframeType ∧
     (ccguidanceTask initState c6world env1).1.positionHoldLast = 0) := by
  have hr : ratePasses initState world1 env1 := by
    simp [ratePasses, sub32, initState, world1, env1, settingsBase, portTICK_RATE_MS]
  have hr5 : ratePasses c5state world1 env1 := by
    simp [ratePasses, sub32, c5state, initState, world1, env1, settingsBase, portTICK_RATE_MS]
  have hr6 : ratePasses initState c6world env1 := by
    simp [ratePasses, sub32, initState, c6world, env1, settingsBase, portTICK_RATE_MS]
  have hg : guardPass (effectiveFS world1 env1).FlightMode env1.airframeType := by
    simp [guardPass, effectiveFS, failsafeCond, world1, env1, PARSE_FLIGHT_MODE]
  have hg6 : ¬ guardPass (effectiveFS c6world env1).FlightMode env1.airframeType := by
    simp [guardPass, effectiveFS, failsafeCond, c6world, env1, PARSE_FLIGHT_MODE]
  have h1 : initState.positionHoldLast ≠ 1 := by simp [initState]
  have h15 : c5state.positionHoldLast = 1 := by simp [c5state, initState]
  have hh : holdCond (effectiveFS world1 env1).FlightMode world1.settings := by
    simp [holdCond, effectiveFS, failsafeCond, world1, env1]
  exact ⟨⟨hr, hg, h1, hh, (C5_positionHold_capture initState world1 env1 hr).1 hg h1 hh⟩,
         ⟨h15, (C5_positionHold_capture c5state world1 env1 hr5).2.1 hg h15 hh⟩,
         ⟨hg6, (C5_positionHold_capture initState c6world env1 hr6).2.2 hg6⟩⟩

/-- In a gated guard-passing 3D-fix cycle the latch flag becomes 1 exactly
when the step is 0 and the latch condition holds, and is untouched
otherwise. -/
theorem task_flag_gated_fix (s : GuidState) (w : World) (e : Env)
    (hr : ratePasses s w e)
    (hg : guardPass (effectiveFS w e).FlightMode e.airframeType)
    (hf : e.gps.Status = GPSStatus.fix3D) :
    (ccguidanceTask s w e).1.StateSaveCurrentPositionToRTB =
      if s.calculateCourseStep = 0 ∧ latchCond (effectiveFS w e).Armed s then 1
      else s.StateSaveCurrentPositionToRTB := by
  have hsel : (targetSelect (effectiveWorld w e).settings (effectiveFS w e).FlightMode
      e.gps { s with lastUpdateTime := e.tick }).StateSaveCurrentPositionToRTB =
      s.StateSaveCurrentPositionToRTB :=
    targetSelect_StateSave _ _ _ _
  have hiff : latchCond (effectiveFS w e).Armed
      ({ targetSelect (effectiveWorld w e).settings (effectiveFS w e).FlightMode
          e.gps { s with lastUpdateTime := e.tick } with
        positionActualNorth := (e.gps.Latitude : ℝ) * 1e-7
        positionActualEast := (e.gps.Longitude : ℝ) * 1e-7 }) ↔
      latchCond (effectiveFS w e).Armed s := by
    unfold latchCond
    dsimp only
    rw [hsel]
  unfold ccguidanceTask gatedBody guidedBranch finishGuidance publish
  rw [if_pos hr]
  dsimp only
  rw [if_pos hg, if_pos hf]
  split
  case h_1 heq =>
    rw [targetSelect_calculateCourseStep] at heq
    dsimp only at heq
    by_cases hl : latchCond (effectiveFS w e).Armed s
    · rw [if_pos (show s.calculateCourseStep = 0 ∧ latchCond (effectiveFS w e).Armed s
        from ⟨heq, hl⟩)]
      rw [if_pos (hiff.mpr hl)]
    · rw [if_neg (show ¬ (s.calculateCourseStep = 0 ∧ latchCond (effectiveFS w e).Armed s)
        from fun hcon => hl hcon.2)]
      rw [if_neg (fun hx => hl (hiff.mp hx))]
      dsimp only
      exact hsel
  case h_2 heq =>
    rw [targetSelect_calculateCourseStep] at heq
    dsimp only at heq
    rw [if_neg (show ¬ (s.calculateCourseStep = 0 ∧ latchCond (effectiveFS w e).Armed s)
      from fun hcon => by rw [heq] at hcon; exact absurd hcon.1 (by omega))]
    split <;> (dsimp only; exact hsel)
  case h_3 heq =>
    rw [targetSelect_calculateCourseStep] at heq
    dsimp only at heq
    rw [if_neg (show ¬ (s.calculateCourseStep = 0 ∧ latchCond (effectiveFS w e).Armed s)
      from fun hcon => by rw [heq] at hcon; exact absurd hcon.1 (by omega))]
    split <;> (dsimp only; exact hsel)
  case h_4 h0 h1 h2 =>
    rw [targetSelect_calculateCourseStep] at h0 h1 h2
    dsimp only at h0 h1 h2
    rw [if_neg (show ¬ (s.calculateCourseStep = 0 ∧ latchCond (effectiveFS w e).Armed s)
      from fun hcon => h0 hcon.1)]
    split <;> (dsimp only; exact hsel)

/-- A gated guard-passing cycle without a 3D fix leaves the latch flag. -/
theorem task_flag_noFix (s : GuidState) (w : World) (e : Env)
    (hr : ratePasses s w e)
    (hg : guardPass (effectiveFS w e).FlightMode e.airframeType)
    (hf : ¬ e.gps.Status = GPSStatus.fix3D) :
    (ccguidanceTask s w e).1.StateSaveCurrentPositionToRTB =
      s.StateSaveCurrentPositionToRTB := by
  unfold ccguidanceTask gatedBody guidedBranch publish
  rw [if_pos hr]
  dsimp only
  rw [if_pos hg, if_neg hf]
  dsimp only
  rw [targetSelect_StateSave]

/-- A gated guard-failing cycle leaves the latch flag. -/
theorem task_flag_guardFail (s : GuidState) (w : World) (e : Env)
    (hr : ratePasses s w e)
    (hg : ¬ guardPass (effectiveFS w e).FlightMode e.airframeType) :
    (ccguidanceTask s w e).1.StateSaveCurrentPositionToRTB =
      s.StateSaveCurrentPositionToRTB := by
  unfold ccguidanceTask gatedBody
  rw [if_pos hr]
  dsimp only
  rw [if_neg hg]

/-- The latch flag after any invocation: 1 exactly when the full latch path
ran (gated, guard, 3D fix, step 0, disarmed, flag clear), its old value
otherwise. -/
theorem task_flag (s : GuidState) (w : World) (e : Env) :
    (ccguidanceTask s w e).1.StateSaveCurrentPositionToRTB =
      if ratePasses s w e ∧ guardPass (effectiveFS w e).FlightMode e.airframeType ∧
         e.gps.Status = GPSStatus.fix3D ∧ s.calculateCourseStep = 0 ∧
         latchCond (effectiveFS w e).Armed s
      then 1 else s.StateSaveCurrentPositionToRTB := by
  by_cases hr : ratePasses s w e
  · by_cases hg : guardPass (effectiveFS w e).FlightMode e.airframeType
    · by_cases hf : e.gps.Status = GPSStatus.fix3D
      · rw [task_flag_gated_fix s w e hr hg hf]
        by_cases hc : s.calculateCourseStep = 0 ∧ latchCond (effectiveFS w e).Armed s
        · rw [if_pos hc, if_pos ⟨hr, hg, hf, hc.1, hc.2⟩]
        · rw [if_neg hc, if_neg (fun h => hc ⟨h.2.2.2.1, h.2.2.2.2⟩)]
      · rw [task_flag_noFix s w e hr hg hf, if_neg (fun h => hf h.2.2.1)]
    · rw [task_flag_guardFail s w e hr hg, if_neg (fun h => hg h.2.1)]
  · rw [task_nonGated s w e hr,
      if_neg (show ¬ (ratePasses s w e ∧
          guardPass (effectiveFS w e).FlightMode e.airframeType ∧
          e.gps.Status = GPSStatus.fix3D ∧ s.calculateCourseStep = 0 ∧
          latchCond (effectiveFS w e).Armed s)
        from fun h => hr h.1)]

/-- C2 amended: the home latch runs in a cycle exactly when the cycle is
gated, the guard passes with a 3D fix at step 0, the vehicle is disarmed and
the latch flag is still clear; the flag is never cleared again, so the home
location is captured at most once in the whole process lifetime, and an
intervening arm followed by a new disarm does not re-latch. -/
theorem C2_latchOnce_amended (s : GuidState) (w : World) (e : Env) :
    (homeLatchOccurred s (ccguidanceTask s w e).1 ↔
       ratePasses s w e ∧ guardPass (effectiveFS w e).FlightMode e.airframeType ∧
       e.gps.Status = GPSStatus.fix3D ∧ s.calculateCourseStep = 0 ∧
       w.flightStatus.Armed = Armed.disarmed ∧
       s.StateSaveCurrentPositionToRTB = 0) ∧
    (s.StateSaveCurrentPositionToRTB = 1 →
       (ccguidanceTask s w e).1.StateSaveCurrentPositionToRTB = 1) := by
  have key := task_flag s w e
  constructor
  · unfold homeLatchOccurred
    rw [key]
    constructor
    · rintro ⟨h0, h1⟩
      by_cases hc : ratePasses s w e ∧
          guardPass (effectiveFS w e).FlightMode e.airframeType ∧
          e.gps.Status = GPSStatus.fix3D ∧ s.calculateCourseStep = 0 ∧
          latchCond (effectiveFS w e).Armed s
      · obtain ⟨hr, hg, hf, hstep, hl⟩ := hc
        refine ⟨hr, hg, hf, hstep, ?_, hl.2⟩
        rw [← effectiveFS_Armed w e]
        exact hl.1
      · rw [if_neg hc] at h1
        rw [h0] at h1
        exact absurd h1 (by omega)
    · rintro ⟨hr, hg, hf, hstep, ha, h0⟩
      have hl : latchCond (effectiveFS w e).Armed s :=
        ⟨by rw [effectiveFS_Armed]; exact ha, h0⟩
      rw [if_pos ⟨hr, hg, hf, hstep, hl⟩]
      exact ⟨h0, rfl⟩
  · intro h1
    rw [key]
    split
    · rfl
    · exact h1

theorem C2_latchOnce_amended_witness :
    initState.StateSaveCurrentPositionToRTB = 0 ∧
    (homeLatchOccurred initState (ccguidanceTask initState world1 env1).1 ↔
       ratePasses initState world1 env1 ∧
       guardPass (effectiveFS world1 env1).FlightMode env1.airframeType ∧
       env1.gps.Status = GPSStatus.fix3D ∧
       initState.calculateCourseStep = 0 ∧
       world1.flightStatus.Armed = Armed.disarmed ∧
       initState.StateSaveCurrentPositionToRTB = 0) ∧
    (c5state.StateSaveCurrentPositionToRTB = 1 →
       (ccguidanceTask c5state world1 env1).1.StateSaveCurrentPositionToRTB = 1) := by
  exact ⟨rfl, (C2_latchOnce_amended initState world1 env1).1,
         (C2_latchOnce_amended c5state world1 env1).2⟩

/-- C2 counterexample: the first disarmed cycle latches home; the vehicle is
then armed for a cycle and disarmed again; the next disarmed processing cycle
(gated, guard passed, 3D fix, step 0) does not latch again, because the latch
flag is never reset — refuting the claim that after an intervening arm a
subsequent disarm latches exactly once. -/
theorem C2_counterexample :
    homeLatchOccurred initState c2s1 ∧
    c2w2.flightStatus.Armed = Armed.armed ∧
    c2w3.flightStatus.Armed = Armed.disarmed ∧
    ratePasses c2s2 c2w3 env1 ∧
    guardPass (effectiveFS c2w3 env1).FlightMode env1.airframeType ∧
    env1.gps.Status = GPSStatus.fix3D ∧
    c2s2.calculateCourseStep = 0 ∧
    ¬ homeLatchOccurred c2s2 c2s3 := by
  refine ⟨?_, rfl, rfl, ?_, ?_, ?_, ?_, ?_⟩
  · simp [c2s1, ccguidanceTask, ratePasses, sub32, gatedBody, effectiveFS, effectiveWorld,
      failsafeCond, guardPass, PARSE_FLIGHT_MODE, guidedBranch, targetSelect, holdCond,
      rtbCond, latchCond, homeLatchOccurred, initState, world1, env1, settingsBase,
      gps0, stabSentinel, portTICK_RATE_MS]
  · simp [ratePasses, sub32, c2s2, c2s1, c2w3, c2w2, ccguidanceTask, gatedBody,
      effectiveFS, effectiveWorld, failsafeCond, guardPass, PARSE_FLIGHT_MODE,
      guidedBranch, targetSelect, holdCond, rtbCond, latchCond, initState, world1,
      env1, settingsBase, gps0, stabSentinel, portTICK_RATE_MS]
  · simp [c2w3, c2w2, ccguidanceTask, ratePasses, sub32, gatedBody, effectiveFS,
      effectiveWorld, failsafeCond, guardPass, PARSE_FLIGHT_MODE, guidedBranch,
      targetSelect, holdCond, rtbCond, latchCond, initState, world1, env1,
      settingsBase, gps0, stabSentinel, portTICK_RATE_MS]
  · simp [env1, gps0]
  · simp [c2s2, c2s1, c2w2, ccguidanceTask, ratePasses, sub32, gatedBody, effectiveFS,
      effectiveWorld, failsafeCond, guardPass, PARSE_FLIGHT_MODE, guidedBranch,
      targetSelect, holdCond, rtbCond, latchCond, initState, world1, env1,
      settingsBase, gps0, stabSentinel, portTICK_RATE_MS]
  · simp [homeLatchOccurred, c2s2, c2s1, c2w2, ccguidanceTask, ratePasses, sub32,
      gatedBody, effectiveFS, effectiveWorld, failsafeCond, guardPass,
      PARSE_FLIGHT_MODE, guidedBranch, targetSelect, holdCond, rtbCond, latchCond,
      initState, world1, env1, settingsBase, gps0, stabSentinel, portTICK_RATE_MS]

/-- The distance between coincident points at the origin is 0: the acos
argument is exactly 1, inside the domain, and arccos 1 = 0. -/
theorem sphereDistance_zero : sphereDistance 0 0 0 0 = 0 := by
  unfold sphereDistance
  rw [show DEG2RAD * (0 : ℝ) = 0 by rw [mul_zero],
      show (0 : ℝ) - 0 = 0 by norm_num]
  rw [Real.sin_zero, Real.cos_zero]
  norm_num [Real.arccos_one]

/-- A gated guard-passing 3D-fix cycle at step 1 with an idle target selection
computes the distance to target from the step-0 snapshot and the desired
target, computes the heading error when groundspeed is above the threshold,
leaves the true course untouched, publishes nothing, and advances to step 2. -/
theorem task_step1_run (s : GuidState) (w : World) (e : Env)
    (hr : ratePasses s w e)
    (hg : guardPass (effectiveFS w e).FlightMode e.airframeType)
    (hf : e.gps.Status = GPSStatus.fix3D)
    (hsel : targetSelect (effectiveWorld w e).settings (effectiveFS w e).FlightMode
      e.gps { s with lastUpdateTime := e.tick } = { s with lastUpdateTime := e.tick })
    (h1 : s.calculateCourseStep = 1) :
    (ccguidanceTask s w e).1.DistanceToBase =
      sphereDistance s.positionActualNorth s.positionActualEast
        s.positionDesiredNorth s.positionDesiredEast ∧
    (ccguidanceTask s w e).1.courseTrue = s.courseTrue ∧
    (e.gps.Groundspeed > w.settings.GroundspeedMinimal →
      (ccguidanceTask s w e).1.diffHeadingYaw =
        wrap180 (e.attitudeYaw - e.gps.Heading)) ∧
    (¬ e.gps.Groundspeed > w.settings.GroundspeedMinimal →
      (ccguidanceTask s w e).1.diffHeadingYaw = s.diffHeadingYaw) ∧
    (ccguidanceTask s w e).2.stabDesired = w.stabDesired ∧
    (ccguidanceTask s w e).1.calculateCourseStep = 2 := by
  unfold ccguidanceTask gatedBody guidedBranch finishGuidance publish
  rw [if_pos hr]
  dsimp only
  rw [if_pos hg, if_pos hf, hsel]
  dsimp only
  rw [h1]
  dsimp only
  refine ⟨?_, ?_, ?_, ?_, effectiveWorld_stab w e, ?_⟩
  · split <;> rfl
  · split <;> rfl
  · intro hgs
    rw [if_pos (show e.gps.Groundspeed > (effectiveWorld w e).settings.GroundspeedMinimal
      by rw [effectiveWorld_settings]; exact hgs)]
  · intro hgs
    rw [if_neg (show ¬ e.gps.Groundspeed > (effectiveWorld w e).settings.GroundspeedMinimal
      by rw [effectiveWorld_settings]; exact hgs)]
  · split <;> rfl

/-- A gated guard-passing 3D-fix cycle at step 2 with an idle target selection
computes only the true course (from the snapshot, the desired target and the
previously stored distance), leaves the distance untouched, and falls through
into setpoint computation and publish in the same cycle, resetting the step. -/
theorem task_step2_run (s : GuidState) (w : World) (e : Env)
    (hr : ratePasses s w e)
    (hg : guardPass (effectiveFS w e).FlightMode e.airframeType)
    (hf : e.gps.Status = GPSStatus.fix3D)
    (hsel : targetSelect (effectiveWorld w e).settings (effectiveFS w e).FlightMode
      e.gps { s with lastUpdateTime := e.tick } = { s with lastUpdateTime := e.tick })
    (h2 : s.calculateCourseStep = 2) :
    (ccguidanceTask s w e).1.courseTrue =
      sphereCourse s.positionActualNorth s.positionActualEast
        s.positionDesiredNorth s.positionDesiredEast s.DistanceToBase ∧
    (ccguidanceTask s w e).1.DistanceToBase = s.DistanceToBase ∧
    (ccguidanceTask s w e).2.stabDesired.Throttle = e.manualThrottle ∧
    (ccguidanceTask s w e).2.stabDesired.Roll = w.settings.RollNeutral ∧
    (ccguidanceTask s w e).1.calculateCourseStep = 0 := by
  unfold ccguidanceTask gatedBody guidedBranch finishGuidance publish
  rw [if_pos hr]
  dsimp only
  rw [if_pos hg, if_pos hf, hsel]
  dsimp only
  rw [h2]
  dsimp only
  refine ⟨?_, ?_, ?_, ?_, ?_⟩
  · split <;> rfl
  · split <;> rfl
  · rfl
  · rw [effectiveWorld_settings]
  · rfl

/-- C9 amended: step 1 computes the distance-to-target (from the step-0
snapshot and the desired target) together with the heading error (when
groundspeed exceeds the configured minimum; otherwise the previous heading
error is retained), and returns without publishing; step 2 computes only the
true course and falls through into setpoint computation in the same cycle. -/
theorem C9_step_roles_amended (s : GuidState) (w : World) (e : Env)
    (hr : ratePasses s w e)
    (hg : guardPass (effectiveFS w e).FlightMode e.airframeType)
    (hf : e.gps.Status = GPSStatus.fix3D)
    (hsel : targetSelect (effectiveWorld w e).settings (effectiveFS w e).FlightMode
      e.gps { s with lastUpdateTime := e.tick } = { s with lastUpdateTime := e.tick }) :
    (s.calculateCourseStep = 1 →
       (ccguidanceTask s w e).1.DistanceToBase =
         sphereDistance s.positionActualNorth s.positionActualEast
           s.positionDesiredNorth s.positionDesiredEast ∧
       (e.gps.Groundspeed > w.settings.GroundspeedMinimal →
          (ccguidanceTask s w e).1.diffHeadingYaw =
            wrap180 (e.attitudeYaw - e.gps.Heading)) ∧
       (¬ e.gps.Groundspeed > w.settings.GroundspeedMinimal →
          (ccguidanceTask s w e).1.diffHeadingYaw = s.diffHeadingYaw) ∧
       (ccguidanceTask s w e).1.courseTrue = s.courseTrue ∧
       (ccguidanceTask s w e).2.stabDesired = w.stabDesired) ∧
    (s.calculateCourseStep = 2 →
       (ccguidanceTask s w e).1.courseTrue =
         sphereCourse s.positionActualNorth s.positionActualEast
           s.positionDesiredNorth s.positionDesiredEast s.DistanceToBase ∧
       (ccguidanceTask s w e).1.DistanceToBase = s.DistanceToBase ∧
       (ccguidanceTask s w e).2.stabDesired.Throttle = e.manualThrottle ∧
       (ccguidanceTask s w e).1.calculateCourseStep = 0) := by
  constructor
  · intro h1
    obtain ⟨hd, hc, hya, hyb, hst, -⟩ := task_step1_run s w e hr hg hf hsel h1
    exact ⟨hd, hya, hyb, hc, hst⟩
  · intro h2
    obtain ⟨hc, hd, ht, -, hz⟩ := task_step2_run s w e hr hg hf hsel h2
    exact ⟨hc, hd, ht, hz⟩

/-- C9 counterexample: the claim says step 2 computes the distance-to-target
and step 1 only the heading error. In a gated guard-passing 3D-fix cycle at
step 1 (snapshot and target both at the origin, stored distance 999) the
distance field changes to sphereDistance of the snapshot and target (= 0), so
step 1, not step 2, computes the distance; the true course is untouched. -/
theorem C9_counterexample :
    ratePasses c9s world1 env1 ∧
    guardPass (effectiveFS world1 env1).FlightMode env1.airframeType ∧
    env1.gps.Status = GPSStatus.fix3D ∧
    c9s.calculateCourseStep = 1 ∧
    c9s.DistanceToBase = 999 ∧
    (ccguidanceTask c9s world1 env1).1.DistanceToBase = 0 ∧
    (ccguidanceTask c9s world1 env1).1.courseTrue = c9s.courseTrue := by
  have hr : ratePasses c9s world1 env1 := by
    simp [ratePasses, sub32, c9s, initState, world1, env1, settingsBase, portTICK_RATE_MS]
  have hg : guardPass (effectiveFS world1 env1).FlightMode env1.airframeType := by
    simp [guardPass, effectiveFS, failsafeCond, world1, env1, PARSE_FLIGHT_MODE]
  have hf : env1.gps.Status = GPSStatus.fix3D := by simp [env1, gps0]
  have hsel : targetSelect (effectiveWorld world1 env1).settings
      (effectiveFS world1 env1).FlightMode env1.gps
      { c9s with lastUpdateTime := env1.tick } =
      { c9s with lastUpdateTime := env1.tick } := by
    simp [targetSelect, effectiveWorld, effectiveFS, failsafeCond, holdCond, rtbCond,
      world1, env1, settingsBase, c9s, initState]
  obtain ⟨hd, hc, -, -, -, -⟩ := task_step1_run c9s world1 env1 hr hg hf hsel rfl
  refine ⟨hr, hg, hf, rfl, rfl, ?_, hc⟩
  rw [hd]
  show sphereDistance 0 0 0 0 = 0
  exact sphereDistance_zero

theorem C9_step_roles_amended_witness :
    ratePasses c9s world1 env1 ∧
    c9s.calculateCourseStep = 1 ∧
    c9s2.calculateCourseStep = 2 ∧
    ¬ env1.gps.Groundspeed > world1.settings.GroundspeedMinimal ∧
    c9fastEnv.gps.Groundspeed > world1.settings.GroundspeedMinimal ∧
    ((ccguidanceTask c9s world1 env1).1.DistanceToBase =
       sphereDistance c9s.positionActualNorth c9s.positionActualEast
         c9s.positionDesiredNorth c9s.positionDesiredEast ∧
     (ccguidanceTask c9s world1 env1).1.diffHeadingYaw = c9s.diffHeadingYaw ∧
     (ccguidanceTask c9s world1 env1).1.courseTrue = c9s.courseTrue ∧
     (ccguidanceTask c9s world1 env1).2.stabDesired = world1.stabDesired) ∧
    (ccguidanceTask c9s world1 c9fastEnv).1.diffHeadingYaw =
      wrap180 (c9fastEnv.attitudeYaw - c9fastEnv.gps.Heading) ∧
    ((ccguidanceTask c9s2 world1 env1).1.courseTrue =
       sphereCourse c9s2.positionActualNorth c9s2.positionActualEast
         c9s2.positionDesiredNorth c9s2.positionDesiredEast c9s2.DistanceToBase ∧
     (ccguidanceTask c9s2 world1 env1).1.DistanceToBase = c9s2.DistanceToBase ∧
     (ccguidanceTask c9s2 world1 env1).2.stabDesired.Throttle = env1.manualThrottle ∧
     (ccguidanceTask c9s2 world1 env1).1.calculateCourseStep = 0) := by
  have hr : ratePasses c9s world1 env1 := by
    simp [ratePasses, sub32, c9s, initState, world1, env1, settingsBase, portTICK_RATE_MS]
  have hr2 : ratePasses c9s2 world1 env1 := by
    simp [ratePasses, sub32, c9s2, c9s, initState, world1, env1, settingsBase, portTICK_RATE_MS]
  have hrF : ratePasses c9s world1 c9fastEnv := by
    simp [ratePasses, sub32, c9s, initState, world1, c9fastEnv, env1, settingsBase,
      portTICK_RATE_MS]
  have hg : guardPass (effectiveFS world1 env1).FlightMode env1.airframeType := by
    simp [guardPass, effectiveFS, failsafeCond, world1, env1, PARSE_FLIGHT_MODE]
  have hgF : guardPass (effectiveFS world1 c9fastEnv).FlightMode c9fastEnv.airframeType := by
    simp [guardPass, effectiveFS, failsafeCond, world1, c9fastEnv, env1, PARSE_FLIGHT_MODE]
  have hf : env1.gps.Status = GPSStatus.fix3D := by simp [env1, gps0]
  have hfF : c9fastEnv.gps.Status = GPSStatus.fix3D := by simp [c9fastEnv, env1, gps0]
  have hsel : targetSelect (effectiveWorld world1 env1).settings
      (effectiveFS world1 env1).FlightMode env1.gps
      { c9s with lastUpdateTime := env1.tick } =
      { c9s with lastUpdateTime := env1.tick } := by
    simp [targetSelect, effectiveWorld, effectiveFS, failsafeCond, holdCond, rtbCond,
      world1, env1, settingsBase, c9s, initState]
  have hselF : targetSelect (effectiveWorld world1 c9fastEnv).settings
      (effectiveFS world1 c9fastEnv).FlightMode c9fastEnv.gps
      { c9s with lastUpdateTime := c9fastEnv.tick } =
      { c9s with lastUpdateTime := c9fastEnv.tick } := by
    simp [targetSelect, effectiveWorld, effectiveFS, failsafeCond, holdCond, rtbCond,
      world1, c9fastEnv, env1, settingsBase, c9s, initState]
  have hsel2 : targetSelect (effectiveWorld world1 env1).settings
      (effectiveFS world1 env1).FlightMode env1.gps
      { c9s2 with lastUpdateTime := env1.tick } =
      { c9s2 with lastUpdateTime := env1.tick } := by
    simp [targetSelect, effectiveWorld, effectiveFS, failsafeCond, holdCond, rtbCond,
      world1, env1, settingsBase, c9s2, c9s, initState]
  have hslow : ¬ env1.gps.Groundspeed > world1.settings.GroundspeedMinimal := by
    simp [env1, gps0, world1, settingsBase]
  have hfast : c9fastEnv.gps.Groundspeed > world1.settings.GroundspeedMinimal := by
    simp [c9fastEnv, env1, gps0, world1, settingsBase]
  obtain ⟨hd1, hya1, hyb1, hc1, hst1⟩ :=
    (C9_step_roles_amended c9s world1 env1 hr hg hf hsel).1 rfl
  obtain ⟨-, hya2, -, -, -⟩ :=
    (C9_step_roles_amended c9s world1 c9fastEnv hrF hgF hfF hselF).1 rfl
  exact ⟨hr, rfl, rfl, hslow, hfast,
    ⟨hd1, hyb1 hslow, hc1, hst1⟩,
    hya2 hfast,
    (C9_step_roles_amended c9s2 world1 env1 hr2 hg hf hsel2).2 rfl⟩

/-- C10: in the hold-radius decision the scaled distance is converted to an
integer by truncation toward zero before the strict comparison with
RadiusBase (for a non-negative scaled distance the test is exactly
RadiusBase < floor of it), and when the test fails the yaw setpoint field is
still assigned, receiving the courseRelative value retained from the previous
computation. -/
theorem C10_radius_truncation (s : GuidState) (w : World) (e : Env)
    (hr : ratePasses s w e)
    (hg : guardPass (effectiveFS w e).FlightMode e.airframeType)
    (hf : e.gps.Status = GPSStatus.fix3D)
    (hsel : targetSelect (effectiveWorld w e).settings (effectiveFS w e).FlightMode
      e.gps { s with lastUpdateTime := e.tick } = { s with lastUpdateTime := e.tick })
    (h2 : s.calculateCourseStep = 2)
    (hin : ¬ radiusCheck s.DistanceToBase w.settings.RadiusBase) :
    (ccguidanceTask s w e).2.stabDesired.Yaw = s.courseRelative ∧
    (∀ d : ℝ, ∀ r : ℤ, 0 ≤ d * 111111 →
       (radiusCheck d r ↔ r < ⌊d * 111111⌋)) := by
  constructor
  · unfold ccguidanceTask gatedBody guidedBranch finishGuidance publish
    rw [if_pos hr]
    dsimp only
    rw [if_pos hg, if_pos hf, hsel]
    dsimp only
    rw [h2]
    dsimp only
    split
    case isTrue hx =>
      rw [effectiveWorld_settings] at hx
      exact absurd hx hin
    case isFalse hx =>
      split <;> rfl
  · intro d r h
    unfold radiusCheck truncF
    rw [if_pos h, abs_of_nonneg (Int.floor_nonneg.mpr h)]

theorem C10_radius_truncation_witness :
    ratePasses c10s world1 env1 ∧
    c10s.calculateCourseStep = 2 ∧
    ¬ radiusCheck c10s.DistanceToBase world1.settings.RadiusBase ∧
    ((ccguidanceTask c10s world1 env1).2.stabDesired.Yaw = c10s.courseRelative ∧
     (∀ d : ℝ, ∀ r : ℤ, 0 ≤ d * 111111 →
        (radiusCheck d r ↔ r < ⌊d * 111111⌋))) := by
  have hr2 : ratePasses c10s world1 env1 := by
    simp [ratePasses, sub32, c10s, initState, world1, env1, settingsBase, portTICK_RATE_MS]
  have hg : guardPass (effectiveFS world1 env1).FlightMode env1.airframeType := by
    simp [guardPass, effectiveFS, failsafeCond, world1, env1, PARSE_FLIGHT_MODE]
  have hf : env1.gps.Status = GPSStatus.fix3D := by simp [env1, gps0]
  have hsel2 : targetSelect (effectiveWorld world1 env1).settings
      (effectiveFS world1 env1).FlightMode env1.gps
      { c10s with lastUpdateTime := env1.tick } =
      { c10s with lastUpdateTime := env1.tick } := by
    simp [targetSelect, effectiveWorld, effectiveFS, failsafeCond, holdCond, rtbCond,
      world1, env1, settingsBase, c10s, initState]
  have hin : ¬ radiusCheck c10s.DistanceToBase world1.settings.RadiusBase := by
    show ¬ radiusCheck 0 (5 : ℤ)
    unfold radiusCheck truncF
    norm_num
  exact ⟨hr2, rfl, hin,
    C10_radius_truncation c10s world1 env1 hr2 hg hf hsel2 rfl hin⟩

/-- The magnitude part of sphereCourse is always between 0 and 180: either the
NaN replacement yields 0, or RAD2DEG times an arccos value in the interval
from 0 to pi. -/
theorem sphereCourseMag_bounds (lat1 lat2 zeta : ℝ) :
    0 ≤ sphereCourseMag lat1 lat2 zeta ∧ sphereCourseMag lat1 lat2 zeta ≤ 180 := by
  unfold sphereCourseMag
  dsimp only
  split
  · norm_num
  · constructor
    · apply mul_nonneg
      · unfold RAD2DEG
        positivity
      · exact Real.arccos_nonneg _
    · calc RAD2DEG * Real.arccos _ ≤ RAD2DEG * Real.pi := by
            apply mul_le_mul_of_nonneg_left (Real.arccos_le_pi _)
            unfold RAD2DEG
            positivity
        _ = 180 := by
            unfold RAD2DEG
            exact div_mul_cancel₀ 180 Real.pi_ne_zero

/-- C3 amended: sphereCourse always returns a value (never NaN) in the closed
interval from -180 to 180; a NaN acos result (zero denominator, or quotient
outside the arccos domain) is replaced by 0; a non-negative wrapped longitude
difference yields the positive magnitude and a negative one its negation. -/
theorem C3_sphereCourse_range_amended (lat1 long1 lat2 long2 zeta : ℝ) :
    (-180 ≤ sphereCourse lat1 long1 lat2 long2 zeta ∧
     sphereCourse lat1 long1 lat2 long2 zeta ≤ 180) ∧
    (Real.cos (DEG2RAD * lat1) * Real.sin (DEG2RAD * zeta) = 0 ∨
       1 < |(Real.sin (DEG2RAD * lat2) -
             Real.sin (DEG2RAD * lat1) * Real.cos (DEG2RAD * zeta)) /
            (Real.cos (DEG2RAD * lat1) * Real.sin (DEG2RAD * zeta))| →
       sphereCourseMag lat1 lat2 zeta = 0) ∧
    (0 ≤ courseSignDiff long1 long2 →
       sphereCourse lat1 long1 lat2 long2 zeta = sphereCourseMag lat1 lat2 zeta) ∧
    (courseSignDiff long1 long2 < 0 →
       sphereCourse lat1 long1 lat2 long2 zeta = -sphereCourseMag lat1 lat2 zeta) := by
  obtain ⟨hm0, hm180⟩ := sphereCourseMag_bounds lat1 lat2 zeta
  refine ⟨?_, ?_, ?_, ?_⟩
  · unfold sphereCourse
    split
    · constructor <;> linarith
    · constructor <;> linarith
  · intro h
    unfold sphereCourseMag
    dsimp only
    rw [if_pos h]
  · intro h
    unfold sphereCourse
    rw [if_pos h]
  · intro h
    unfold sphereCourse
    rw [if_neg (by linarith : ¬ courseSignDiff long1 long2 ≥ 0)]

theorem C3_sphereCourse_range_amended_witness :
    (Real.cos (DEG2RAD * 0) * Real.sin (DEG2RAD * 0) = 0 ∨
       1 < |(Real.sin (DEG2RAD * 0) -
             Real.sin (DEG2RAD * 0) * Real.cos (DEG2RAD * 0)) /
            (Real.cos (DEG2RAD * 0) * Real.sin (DEG2RAD * 0))|) ∧
    sphereCourseMag 0 0 0 = 0 ∧
    0 ≤ courseSignDiff 0 0 ∧
    sphereCourse 0 0 0 0 0 = sphereCourseMag 0 0 0 := by
  have hden : Real.cos (DEG2RAD * (0 : ℝ)) * Real.sin (DEG2RAD * (0 : ℝ)) = 0 := by
    rw [mul_zero, Real.sin_zero, mul_zero]
  have hdiff : (0 : ℝ) ≤ courseSignDiff 0 0 := by
    unfold courseSignDiff
    norm_num
  exact ⟨Or.inl hden,
         (C3_sphereCourse_range_amended 0 0 0 0 0).2.1 (Or.inl hden),
         hdiff,
         (C3_sphereCourse_range_amended 0 0 0 0 0).2.2.1 hdiff⟩

/-- C3 counterexample: at lat1 = 0, long1 = 10, lat2 = -90, long2 = 0,
zeta = 90 the acos argument is exactly -1, the magnitude is 180, and the
wrapped longitude difference -10 is negative, so sphereCourse returns exactly
-180, which is outside the claimed half-open interval (-180, 180]. -/
theorem C3_counterexample :
    sphereCourse 0 10 (-90) 0 90 = -180 ∧
    ¬ (-180 < sphereCourse 0 10 (-90) 0 90) := by
  have h90 : DEG2RAD * (90 : ℝ) = Real.pi / 2 := by
    unfold DEG2RAD; ring
  have hm90 : DEG2RAD * (-90 : ℝ) = -(Real.pi / 2) := by
    unfold DEG2RAD; ring
  have h0 : DEG2RAD * (0 : ℝ) = 0 := mul_zero _
  have hmag : sphereCourseMag 0 (-90) 90 = 180 := by
    unfold sphereCourseMag
    dsimp only
    rw [h90, hm90, h0, Real.sin_neg, Real.sin_pi_div_two, Real.sin_zero, Real.cos_zero]
    norm_num [Real.arccos_neg_one]
    unfold RAD2DEG
    exact div_mul_cancel₀ 180 Real.pi_ne_zero
  have hdiff : courseSignDiff 10 0 = -10 := by
    unfold courseSignDiff
    norm_num
  have hval : sphereCourse 0 10 (-90) 0 90 = -180 := by
    unfold sphereCourse
    rw [hdiff, hmag]
    norm_num
  exact ⟨hval, by rw [hval]; norm_num⟩

end CCGuidance
